import Mathlib

/-!
Verification of the SIHOA repository core: the MQTT topic registry and
dispatcher (`src/mqtt/client_manager.py`), the actuator command state
machine (`src/data_model/actuator.py`, `src/data_model/light.py`), and the
inventory reconciler (`src/apps/imports/import_devices.py`).

The Python code is shallowly embedded: the mutable registry dictionary is a
String-keyed association list, the mutable device store is a list of records
keyed by IEEE address, Python exceptions become an explicit error component
of the result (the state component carries the post-mutation state, since a
Python exception does not roll back mutations already performed), and the
transport client is abstracted by the integer result codes its subscribe
and unsubscribe calls return.
-/

/-! ## Topic registry and dispatcher (ClientManager) -/

/-- Errors raised by the registry paths of `ClientManager`
(`raise Exception(...)` in the Python source; the spec names them
`DuplicateRegistration`, `SubscriptionFailed`, `NotRegistered` and the
unsubscribe analogue). -/
inductive RegError where
  | duplicateRegistration
  | subscriptionFailed
  | unsubscriptionFailed
  | notRegistered
deriving DecidableEq, Repr

/-- Errors raised by the message paths of `ClientManager`: a decode failure
propagating out of `on_message` (`json.loads` / `payload.decode` raising)
and an unrouted message (`UnroutedMessage` in the spec). -/
inductive MsgError where
  | decodeError
  | unrouted
deriving DecidableEq, Repr

/-- The registry `self._registry : Dict[str, Callable]`, embedded as an
association list from topic to handler. -/
abbrev Registry (H : Type) := List (String × H)

/-- `self._registry.get(topic)`: first binding for `topic`, if any. -/
def registryGet {H : Type} (reg : Registry H) (topic : String) : Option H :=
  (reg.find? (fun p => p.1 == topic)).map (fun p => p.2)

/-- `self._registry[topic] = callback` for a topic not yet present:
dictionary insertion appends the new key. -/
def registryInsert {H : Type} (reg : Registry H) (topic : String) (cb : H) : Registry H :=
  reg ++ [(topic, cb)]

/-- `ClientManager.register(topic, callback)`.  The Python body first
records the binding in the dictionary, then calls
`self._client.subscribe(topic)`; a non-zero result raises, a duplicate
topic raises without touching the dictionary.  `subscribeResult` abstracts
the transport client: the integer result code of `subscribe` per topic.
The returned pair is (registry after the call, error raised if any). -/
def register {H : Type} (subscribeResult : String → Int) (reg : Registry H)
    (topic : String) (cb : H) : Registry H × Option RegError :=
  if (registryGet reg topic).isNone then
    let reg1 := registryInsert reg topic cb
    let result := subscribeResult topic
    if result ≠ 0 then (reg1, some RegError.subscriptionFailed)
    else (reg1, none)
  else (reg, some RegError.duplicateRegistration)

/-- `ClientManager.unregister(topic)`: checks the binding exists, calls
`self._client.unsubscribe(topic)` (result code abstracted by
`unsubscribeResult`); a non-zero result raises before the dictionary `pop`,
otherwise the binding is popped and the previous handler returned.
The result is (registry after the call, error raised, handler returned). -/
def unregister {H : Type} (unsubscribeResult : String → Int) (reg : Registry H)
    (topic : String) : Registry H × Option RegError × Option H :=
  match registryGet reg topic with
  | some cb =>
      if unsubscribeResult topic ≠ 0 then
        (reg, some RegError.unsubscriptionFailed, none)
      else
        (reg.eraseP (fun p => p.1 == topic), none, some cb)
  | none => (reg, some RegError.notRegistered, none)

/-- `ClientManager.on_message(client, userdata, msg)`.  For a registered
topic the Python body runs `json.loads(msg.payload.decode('utf-8'))` with
no exception handling and then puts `{topic, payload}` on the inbound
queue; `decoded` is the outcome of that library decode (`none` when the
raw payload is malformed and the decode raises).  For an unregistered
topic it raises.  The result is (queue after the call, error raised). -/
def on_message {H D : Type} (reg : Registry H) (q : List (String × D))
    (topic : String) (decoded : Option D) : List (String × D) × Option MsgError :=
  if (registryGet reg topic).isSome then
    match decoded with
    | some payload => (q ++ [(topic, payload)], none)
    | none => (q, some MsgError.decodeError)
  else (q, some MsgError.unrouted)

/-! ## Actuator command state machine (Actuator, Light) -/

/-- A JSON-ish payload value appearing in outbound messages: the state
strings and the integer transition hint. -/
inductive PVal where
  | s (v : String)
  | n (v : Int)
deriving DecidableEq, Repr

/-- An outbound message put on `Device.publish_queue`:
`{'topic': ..., 'payload': {...}}`. -/
structure OutMsg where
  topic : String
  payload : List (String × PVal)
deriving DecidableEq, Repr

/-- The in-memory state of an `Actuator`: `_online`, `_state` and
`_pending_state` (all start unknown / false in `__init__`). -/
structure ActuatorState where
  online : Option Bool
  state : Option Bool
  pending_state : Bool
deriving DecidableEq, Repr

/-- The in-memory state of a `Light`: the inherited actuator state plus the
light-specific attributes initialised to `None` in `Light.__init__`. -/
structure LightState where
  act : ActuatorState
  brightness : Option Int
  color_mode : Option String
  color_temp : Option Int
  link_quality : Option Int
  power_on_behavior : Option String
  color_temp_startup : Option Int
deriving DecidableEq, Repr

/-- A decoded get/state report payload: each key of the Python dict that
the handlers look up, `none` when the key is absent from the report. -/
structure GetPayload where
  state : Option String
  brightness : Option Int
  color_mode : Option String
  color_temp : Option Int
  linkquality : Option Int
  power_on_behavior : Option String
  color_temp_startup : Option Int
deriving DecidableEq, Repr

/-- The `Actuator.on` setter: gated on `_pending_state`; when clear it puts
a `set` command (ON for a true value, OFF for false) and a `get` read-back
request on the publish queue and raises the pending flag.  `name` is the
device's `friendly_name`; the second component lists the messages put on
the queue by this call. -/
def Actuator.setOn (name : String) (a : ActuatorState) (value : Bool) :
    ActuatorState × List OutMsg :=
  if !a.pending_state then
    let m1 := if value then OutMsg.mk (name ++ "/set") [("state", PVal.s "ON")]
              else OutMsg.mk (name ++ "/set") [("state", PVal.s "OFF")]
    let m2 := OutMsg.mk (name ++ "/get") [("state", PVal.s "")]
    ({ a with pending_state := true }, [m1, m2])
  else (a, [])

/-- The `Actuator.off` setter: as `Actuator.setOn` with the ON/OFF payload
choice reversed. -/
def Actuator.setOff (name : String) (a : ActuatorState) (value : Bool) :
    ActuatorState × List OutMsg :=
  if !a.pending_state then
    let m1 := if value then OutMsg.mk (name ++ "/set") [("state", PVal.s "OFF")]
              else OutMsg.mk (name ++ "/set") [("state", PVal.s "ON")]
    let m2 := OutMsg.mk (name ++ "/get") [("state", PVal.s "")]
    ({ a with pending_state := true }, [m1, m2])
  else (a, [])

/-- The overriding `Light.on` setter: same gating, with a zero `transition`
hint added to the `set` payload. -/
def Light.setOn (name : String) (l : LightState) (value : Bool) :
    LightState × List OutMsg :=
  if !l.act.pending_state then
    let m1 := if value then
                OutMsg.mk (name ++ "/set") [("state", PVal.s "ON"), ("transition", PVal.n 0)]
              else
                OutMsg.mk (name ++ "/set") [("state", PVal.s "OFF"), ("transition", PVal.n 0)]
    let m2 := OutMsg.mk (name ++ "/get") [("state", PVal.s "")]
    ({ l with act := { l.act with pending_state := true } }, [m1, m2])
  else (l, [])

/-- The overriding `Light.off` setter: ON/OFF choice reversed. -/
def Light.setOff (name : String) (l : LightState) (value : Bool) :
    LightState × List OutMsg :=
  if !l.act.pending_state then
    let m1 := if value then
                OutMsg.mk (name ++ "/set") [("state", PVal.s "OFF"), ("transition", PVal.n 0)]
              else
                OutMsg.mk (name ++ "/set") [("state", PVal.s "ON"), ("transition", PVal.n 0)]
    let m2 := OutMsg.mk (name ++ "/get") [("state", PVal.s "")]
    ({ l with act := { l.act with pending_state := true } }, [m1, m2])
  else (l, [])

/-- Python `str.upper()` on the character data of a string. -/
def pyUpper (s : String) : String := String.mk (s.data.map Char.toUpper)

/-- `Actuator.on_get(data)`: unconditionally clears `_pending_state`, then
sets `_state` from `data['state']` (upper-cased comparison against "ON")
only when that key is present. -/
def Actuator.onGet (a : ActuatorState) (data : GetPayload) : ActuatorState :=
  let a1 := { a with pending_state := false }
  match data.state with
  | some st => { a1 with state := some (pyUpper st == "ON") }
  | none => a1

/-- `Light.on_get(data)`: runs the inherited `Actuator.on_get`, then
updates each light attribute only when its key is present in the report. -/
def Light.onGet (l : LightState) (data : GetPayload) : LightState :=
  let l1 := { l with act := Actuator.onGet l.act data }
  let l2 := match data.brightness with
    | some b => { l1 with brightness := some b }
    | none => l1
  let l3 := match data.color_mode with
    | some v => { l2 with color_mode := some v }
    | none => l2
  let l4 := match data.color_temp with
    | some v => { l3 with color_temp := some v }
    | none => l3
  let l5 := match data.linkquality with
    | some v => { l4 with link_quality := some v }
    | none => l4
  let l6 := match data.power_on_behavior with
    | some v => { l5 with power_on_behavior := some v }
    | none => l5
  match data.color_temp_startup with
  | some v => { l6 with color_temp_startup := some v }
  | none => l6

/-! ## Inventory reconciler (import_devices.py) -/

/-- A dynamically-typed descriptor value as delivered by the JSON snapshot:
a string or an integer. -/
inductive DVal where
  | s (v : String)
  | n (v : Int)
deriving DecidableEq, Repr

/-- Python truthiness of a descriptor value: the empty string and zero are
falsy. -/
def DVal.truthy : DVal → Bool
  | DVal.s v => v ≠ ""
  | DVal.n v => v ≠ 0

/-- A device descriptor: the Python dict, as an association list. -/
abbrev Desc := List (String × DVal)

/-- `d.get(key)`. -/
def dget (d : Desc) (key : String) : Option DVal :=
  (d.find? (fun p => p.1 == key)).map (fun p => p.2)

/-- Python `a or b` on two `d.get` results: the left value when truthy,
otherwise the right result as is. -/
def pyOr (a b : Option DVal) : Option DVal :=
  match a with
  | some v => if v.truthy then some v else b
  | none => b

/-- Python truthiness of a `d.get` result (`None` is falsy). -/
def optTruthy : Option DVal → Bool
  | some v => v.truthy
  | none => false

/-- Python `int(value)` on a descriptor value: an integer converts to
itself, a string parses as a decimal integer or raises (`none`). -/
def pyInt : DVal → Option Int
  | DVal.n v => some v
  | DVal.s v => v.toInt?

/-- Python `x or device.attr`: the dict-chain value when truthy, otherwise
the previously stored attribute. -/
def orKeep (v : Option DVal) (prev : Option DVal) : Option DVal :=
  match v with
  | some x => if x.truthy then some x else prev
  | none => prev

/-- A persisted `Device` row.  Dates and timestamps are abstract codes
(`Nat`); the descriptor-sourced identity and text fields keep the dynamic
`DVal` type they receive from the snapshot. -/
structure DeviceRec where
  ieee_address : DVal
  friendly_name : DVal
  network_address : Option Int
  device_type : Option DVal
  zigbee_model : Option DVal
  zigbee_manufacturer : Option DVal
  firmware_version : Option DVal
  firmware_build_date : Option Nat
  retired_at : Option Nat
deriving DecidableEq, Repr

/-- The device table, a list of rows keyed by `ieee_address`. -/
abbrev Store := List DeviceRec

/-- `session.get(Device, key)`: the row with the given primary key. -/
def storeGet (s : Store) (key : DVal) : Option DeviceRec :=
  s.find? (fun r => r.ieee_address == key)

/-- In-place mutation of the fetched row: replace the row with that key. -/
def storeSet (s : Store) (key : DVal) (r : DeviceRec) : Store :=
  s.map (fun row => if row.ieee_address == key then r else row)

/-- The friendly-name alias chain
`d.get("friendly_name") or d.get("friendlyName") or d.get("name")`. -/
def descFriendly (d : Desc) : Option DVal :=
  pyOr (dget d "friendly_name") (pyOr (dget d "friendlyName") (dget d "name"))

/-- The IEEE-address alias chain
`d.get("ieee_address") or d.get("ieeeAddress") or d.get("ieee")`. -/
def descIeee (d : Desc) : Option DVal :=
  pyOr (dget d "ieee_address") (pyOr (dget d "ieeeAddress") (dget d "ieee"))

/-- `d.get("network_address") or d.get("networkAddress")`. -/
def descNetAddr (d : Desc) : Option DVal :=
  pyOr (dget d "network_address") (dget d "networkAddress")

/-- `d.get("type") or d.get("device_type")`. -/
def descType (d : Desc) : Option DVal :=
  pyOr (dget d "type") (dget d "device_type")

/-- `d.get("model") or d.get("zigbee_model")`. -/
def descModel (d : Desc) : Option DVal :=
  pyOr (dget d "model") (dget d "zigbee_model")

/-- `d.get("manufacturer") or d.get("zigbee_manufacturer")`. -/
def descManufacturer (d : Desc) : Option DVal :=
  pyOr (dget d "manufacturer") (dget d "zigbee_manufacturer")

/-- `d.get("software_version") or d.get("firmware_version")`. -/
def descFirmwareVersion (d : Desc) : Option DVal :=
  pyOr (dget d "software_version") (dget d "firmware_version")

/-- `d.get("software_build_id") or d.get("firmware_build_date") or
d.get("date_code")`. -/
def descBuildRaw (d : Desc) : Option DVal :=
  pyOr (dget d "software_build_id") (pyOr (dget d "firmware_build_date") (dget d "date_code"))

/-- `_parse_date_maybe(value)` on a descriptor value: `None` stays `None`,
non-strings are ignored, a string is stripped and handed to the library
date parser (`parse`, abstracting `dateutil.parser.parse(...).date()`,
`none` when it raises). -/
def parse_date_maybe (parse : String → Option Nat) : Option DVal → Option Nat
  | none => none
  | some (DVal.n _) => none
  | some (DVal.s v) => parse v.trim

/-- The optional-field block of the `store_devices_to_db` loop body applied
to the fetched (or freshly created) row: network address with conversion
failure kept, the `or device.attr` updates, the conditional build-date
update, and the final `device.retired_at = None`. -/
def applyOptional (parse : String → Option Nat) (d : Desc) (r : DeviceRec) : DeviceRec :=
  let r1 := match descNetAddr d with
    | none => { r with network_address := none }
    | some v => match pyInt v with
      | some k => { r with network_address := some k }
      | none => r
  let r2 := { r1 with device_type := orKeep (descType d) r1.device_type }
  let r3 := { r2 with zigbee_model := orKeep (descModel d) r2.zigbee_model }
  let r4 := { r3 with zigbee_manufacturer := orKeep (descManufacturer d) r3.zigbee_manufacturer }
  let r5 := { r4 with firmware_version := orKeep (descFirmwareVersion d) r4.firmware_version }
  let r6 := match parse_date_maybe parse (descBuildRaw d) with
    | some dt => { r5 with firmware_build_date := some dt }
    | none => r5
  { r6 with retired_at := none }

/-- One iteration of the upsert loop of `store_devices_to_db`: skip a
descriptor whose identifier chains are falsy, otherwise fetch or create the
row by primary key, sync the friendly name, record the address as active,
apply the optional-field updates and count the descriptor as processed.
The accumulator is (store, processed count, active address list). -/
def upsertStep (parse : String → Option Nat) (acc : Store × Nat × List DVal)
    (d : Desc) : Store × Nat × List DVal :=
  let store := acc.1
  let count := acc.2.1
  let active := acc.2.2
  match descIeee d, descFriendly d with
  | some iv, some fv =>
      if iv.truthy && fv.truthy then
        let base := match storeGet store iv with
          | none => DeviceRec.mk iv fv none none none none none none none
          | some r => { r with friendly_name := fv }
        let r1 := applyOptional parse d base
        let store1 := match storeGet store iv with
          | none => store ++ [r1]
          | some _ => storeSet store iv r1
        (store1, count + 1, active ++ [iv])
      else acc
  | _, _ => acc

/-- The retirement pass of `store_devices_to_db`: every row that is still
active (`retired_at IS NULL`) and whose address is not in the active set is
stamped with the current time and counted; already-retired rows are not
touched. -/
def retirePass (now : Nat) (active : List DVal) : Store → Store × Nat
  | [] => ([], 0)
  | r :: rest =>
      let rec' := retirePass now active rest
      if r.retired_at = none ∧ ¬ r.ieee_address ∈ active then
        ({ r with retired_at := some now } :: rec'.1, rec'.2 + 1)
      else (r :: rec'.1, rec'.2)

/-- `store_devices_to_db(session, devices)`: the upsert loop over the
snapshot followed by the retirement pass, returning the committed store
and the `(processed_count, retired_count)` pair.  `parse` abstracts the
library date parser and `now` the current UTC timestamp. -/
def store_devices_to_db (parse : String → Option Nat) (now : Nat)
    (store : Store) (devices : List Desc) : Store × Nat × Nat :=
  let up := devices.foldl (upsertStep parse) (store, 0, [])
  let ret := retirePass now up.2.2 up.1
  (ret.1, up.2.1, ret.2)

/-- A descriptor that passes the identifier check of the upsert loop: both
alias chains yield a truthy value. -/
def validDesc (d : Desc) : Bool :=
  optTruthy (descIeee d) && optTruthy (descFriendly d)

/-- The set of active IEEE addresses collected by the upsert loop, computed
standalone: the address of every descriptor that is not skipped. -/
def activeOf : List Desc → List DVal
  | [] => []
  | d :: rest =>
      match descIeee d, descFriendly d with
      | some iv, some fv =>
          if iv.truthy && fv.truthy then iv :: activeOf rest else activeOf rest
      | _, _ => activeOf rest

/-! ## Theorems: topic registry -/

/-- Helper: if a topic has no binding, looking it up after inserting it
finds the inserted handler. -/
theorem registryGet_insert_self {H : Type} (reg : Registry H) (topic : String) (cb : H)
    (h : registryGet reg topic = none) :
    registryGet (registryInsert reg topic cb) topic = some cb := by
  have h' : reg.find? (fun p => p.1 == topic) = none := by
    simpa [registryGet, Option.map_eq_none'] using h
  simp [registryGet, registryInsert, List.find?_append, h', List.find?]

/-- Claim C1 (amended): if `register(topic, handler)` is called when the
topic is not yet bound and the transport's subscribe returns a non-zero
result, the call fails with `SubscriptionFailed`, but the binding has
already been recorded before the subscribe attempt and is not rolled back:
the registry afterwards still contains the binding for that topic. -/
theorem register_subscribe_failure {H : Type} (sub : String → Int) (reg : Registry H)
    (topic : String) (cb : H)
    (hfree : registryGet reg topic = none) (hfail : sub topic ≠ 0) :
    register sub reg topic cb = (registryInsert reg topic cb, some RegError.subscriptionFailed) ∧
    registryGet (register sub reg topic cb).1 topic = some cb := by
  have heq : register sub reg topic cb
      = (registryInsert reg topic cb, some RegError.subscriptionFailed) := by
    simp [register, hfree, hfail]
  exact ⟨heq, by rw [heq]; exact registryGet_insert_self reg topic cb hfree⟩

/-- Witness for claim C1's amended theorem at a concrete input: topic "t",
handler 5, empty registry, subscribe result 1. -/
theorem register_subscribe_failure_witness :
    register (fun _ => 1) ([] : Registry Nat) "t" 5
      = ([("t", 5)], some RegError.subscriptionFailed) ∧
    registryGet (register (fun _ => 1) ([] : Registry Nat) "t" 5).1 "t" = some 5 :=
  register_subscribe_failure (fun _ => 1) [] "t" 5 (by decide) (by decide)

/-- Counterexample to claim C1 as stated: with an empty registry, topic
"t", handler 5 and a transport whose subscribe returns 1, the failed call
leaves the registry containing a binding for "t", so "the registry
afterwards contains no binding for that topic" is false. -/
theorem register_subscribe_failure_records_binding :
    (register (fun _ => 1) ([] : Registry Nat) "t" 5).2 = some RegError.subscriptionFailed ∧
    ¬ registryGet (register (fun _ => 1) ([] : Registry Nat) "t" 5).1 "t" = none := by
  decide

/-- Claim C2 (amended): an inbound transport message on a registered topic
whose raw payload is malformed (the library decode raises) updates no
state and enqueues nothing, but the decode error propagates out of the
inbound callback to the caller instead of being handled locally. -/
theorem on_message_malformed_payload {H D : Type} (reg : Registry H)
    (q : List (String × D)) (topic : String)
    (hreg : (registryGet reg topic).isSome = true) :
    on_message reg q topic (none : Option D) = (q, some MsgError.decodeError) := by
  simp [on_message, hreg]

/-- Witness for claim C2's amended theorem at a concrete input: registry
binding "t" to handler 5, empty queue, malformed payload. -/
theorem on_message_malformed_payload_witness :
    on_message ([("t", 5)] : Registry Nat) ([] : List (String × Nat)) "t" (none : Option Nat)
      = ([], some MsgError.decodeError) :=
  on_message_malformed_payload [("t", 5)] [] "t" (by decide)

/-- Counterexample to claim C2 as stated: on a registered topic with a
malformed payload, `on_message` does raise an exception to the caller
(the decode error is not handled locally), so "no exception is raised to
the caller" is false. -/
theorem on_message_malformed_payload_raises :
    ¬ (on_message ([("t", 5)] : Registry Nat) ([] : List (String × Nat)) "t"
        (none : Option Nat)).2 = none := by
  decide

/-- Claim C4: registering an already-bound topic fails with
`DuplicateRegistration` and leaves the registry unchanged, so it still
maps the topic to the originally bound handler. -/
theorem register_duplicate {H : Type} (sub : String → Int) (reg : Registry H)
    (topic : String) (cb cb2 : H) (hbound : registryGet reg topic = some cb) :
    register sub reg topic cb2 = (reg, some RegError.duplicateRegistration) ∧
    registryGet (register sub reg topic cb2).1 topic = some cb := by
  have heq : register sub reg topic cb2 = (reg, some RegError.duplicateRegistration) := by
    simp [register, hbound]
  exact ⟨heq, by rw [heq]; exact hbound⟩

/-- Witness for claim C4's theorem at a concrete input: registry binding
"t" to handler 7, second registration with handler 9. -/
theorem register_duplicate_witness :
    register (fun _ => 0) ([("t", 7)] : Registry Nat) "t" 9
      = ([("t", 7)], some RegError.duplicateRegistration) ∧
    registryGet (register (fun _ => 0) ([("t", 7)] : Registry Nat) "t" 9).1 "t" = some 7 :=
  register_duplicate (fun _ => 0) [("t", 7)] "t" 7 9 (by decide)

/-- Claim C10: for a registered topic, if the transport's unsubscribe
returns a non-zero result, `unregister` raises and the registry is left
unchanged (no handler is returned); the binding is removed and the
previous handler returned only when the unsubscribe succeeds. -/
theorem unregister_failure_keeps_binding {H : Type} (unsub : String → Int)
    (reg : Registry H) (topic : String) (cb : H)
    (hbound : registryGet reg topic = some cb) :
    (unsub topic ≠ 0 →
      unregister unsub reg topic = (reg, some RegError.unsubscriptionFailed, none)) ∧
    (unsub topic = 0 →
      unregister unsub reg topic = (reg.eraseP (fun p => p.1 == topic), none, some cb)) := by
  constructor
  · intro hfail
    simp [unregister, hbound, hfail]
  · intro hok
    simp [unregister, hbound, hok]

/-- Witness for claim C10's theorem at concrete inputs: registry binding
"t" to handler 7, with a failing and a succeeding unsubscribe. -/
theorem unregister_failure_keeps_binding_witness :
    unregister (fun _ => 1) ([("t", 7)] : Registry Nat) "t"
      = ([("t", 7)], some RegError.unsubscriptionFailed, none) ∧
    unregister (fun _ => 0) ([("t", 7)] : Registry Nat) "t" = ([], none, some 7) :=
  ⟨(unregister_failure_keeps_binding (fun _ => 1) [("t", 7)] "t" 7 (by decide)).1 (by decide),
   (unregister_failure_keeps_binding (fun _ => 0) [("t", 7)] "t" 7 (by decide)).2 (by decide)⟩

/-! ## Theorems: actuator state machine -/

/-- Claim C5: while `pendingCommand` is raised, a `setOn(true)` request
enqueues nothing and changes no state; while it is clear, the request
enqueues exactly one `set` command followed by exactly one `get` request on
the actuator's topics and raises `pendingCommand` — for both the base
`Actuator` setter and the overriding `Light` setter. -/
theorem set_on_gating (name : String) (a : ActuatorState) (l : LightState) :
    (a.pending_state = true → Actuator.setOn name a true = (a, [])) ∧
    (a.pending_state = false →
      Actuator.setOn name a true =
        ({ a with pending_state := true },
         [OutMsg.mk (name ++ "/set") [("state", PVal.s "ON")],
          OutMsg.mk (name ++ "/get") [("state", PVal.s "")]])) ∧
    (l.act.pending_state = true → Light.setOn name l true = (l, [])) ∧
    (l.act.pending_state = false →
      Light.setOn name l true =
        ({ l with act := { l.act with pending_state := true } },
         [OutMsg.mk (name ++ "/set") [("state", PVal.s "ON"), ("transition", PVal.n 0)],
          OutMsg.mk (name ++ "/get") [("state", PVal.s "")]])) := by
  refine ⟨?_, ?_, ?_, ?_⟩ <;> intro h <;> simp [Actuator.setOn, Light.setOn, h]

/-- Witness for claim C5's theorem at concrete inputs: an actuator and a
light with the pending flag raised, and the same with the flag clear. -/
theorem set_on_gating_witness :
    Actuator.setOn "lamp" (ActuatorState.mk none none true) true
      = (ActuatorState.mk none none true, []) ∧
    Actuator.setOn "lamp" (ActuatorState.mk none none false) true
      = (ActuatorState.mk none none true,
         [OutMsg.mk "lamp/set" [("state", PVal.s "ON")],
          OutMsg.mk "lamp/get" [("state", PVal.s "")]]) ∧
    Light.setOn "lamp" (LightState.mk (ActuatorState.mk none none true) none none none none none none) true
      = (LightState.mk (ActuatorState.mk none none true) none none none none none none, []) ∧
    Light.setOn "lamp" (LightState.mk (ActuatorState.mk none none false) none none none none none none) true
      = (LightState.mk (ActuatorState.mk none none true) none none none none none none,
         [OutMsg.mk "lamp/set" [("state", PVal.s "ON"), ("transition", PVal.n 0)],
          OutMsg.mk "lamp/get" [("state", PVal.s "")]]) :=
  ⟨(set_on_gating "lamp" (ActuatorState.mk none none true)
      (LightState.mk (ActuatorState.mk none none true) none none none none none none)).1 rfl,
   (set_on_gating "lamp" (ActuatorState.mk none none false)
      (LightState.mk (ActuatorState.mk none none false) none none none none none none)).2.1 rfl,
   (set_on_gating "lamp" (ActuatorState.mk none none true)
      (LightState.mk (ActuatorState.mk none none true) none none none none none none)).2.2.1 rfl,
   (set_on_gating "lamp" (ActuatorState.mk none none false)
      (LightState.mk (ActuatorState.mk none none false) none none none none none none)).2.2.2 rfl⟩

/-- Claim C6: in every state, calling the `on` setter with a value is
observably equivalent to calling the `off` setter with the negated value
(and vice versa): the same messages are enqueued and the same state
results — for both `Actuator` and `Light`. -/
theorem set_on_off_equivalent (name : String) (v : Bool) (a : ActuatorState) (l : LightState) :
    Actuator.setOn name a v = Actuator.setOff name a (!v) ∧
    Actuator.setOff name a v = Actuator.setOn name a (!v) ∧
    Light.setOn name l v = Light.setOff name l (!v) ∧
    Light.setOff name l v = Light.setOn name l (!v) := by
  cases v <;> simp [Actuator.setOn, Actuator.setOff, Light.setOn, Light.setOff]

/-- Claim C7: a get-report with `state: "ON"` clears the pending flag and
sets `on` to true; a report without a `state` key still clears the pending
flag but leaves `on` unchanged; and every attribute field absent from a
report leaves the stored attribute unchanged — for both `Actuator` and
`Light`. -/
theorem on_get_partial_report (a : ActuatorState) (l : LightState) (p : GetPayload) :
    ((Actuator.onGet a { p with state := some "ON" }).pending_state = false ∧
     (Actuator.onGet a { p with state := some "ON" }).state = some true) ∧
    ((Light.onGet l { p with state := some "ON" }).act.pending_state = false ∧
     (Light.onGet l { p with state := some "ON" }).act.state = some true) ∧
    (p.state = none →
      (Actuator.onGet a p).pending_state = false ∧
      (Actuator.onGet a p).state = a.state ∧
      (Light.onGet l p).act.pending_state = false ∧
      (Light.onGet l p).act.state = l.act.state) ∧
    (p.brightness = none → (Light.onGet l p).brightness = l.brightness) ∧
    (p.color_mode = none → (Light.onGet l p).color_mode = l.color_mode) ∧
    (p.color_temp = none → (Light.onGet l p).color_temp = l.color_temp) ∧
    (p.linkquality = none → (Light.onGet l p).link_quality = l.link_quality) ∧
    (p.power_on_behavior = none → (Light.onGet l p).power_on_behavior = l.power_on_behavior) ∧
    (p.color_temp_startup = none → (Light.onGet l p).color_temp_startup = l.color_temp_startup) := by
  obtain ⟨ps, pb, pcm, pct, plq, ppb, pcts⟩ := p
  cases pb <;> cases pcm <;> cases pct <;> cases plq <;> cases ppb <;> cases pcts <;>
    simp [Light.onGet, Actuator.onGet, show (pyUpper "ON" == "ON") = true from rfl] <;>
    (try intro h) <;> simp_all [Light.onGet, Actuator.onGet]

/-- Witness for claim C7's theorem at a concrete input: a light that is
on-pending receiving a brightness-only report. -/
theorem on_get_partial_report_witness :
    (Light.onGet (LightState.mk (ActuatorState.mk none (some false) true) none none none none none none)
        (GetPayload.mk none (some 5) none none none none none)).act.pending_state = false ∧
    (Light.onGet (LightState.mk (ActuatorState.mk none (some false) true) none none none none none none)
        (GetPayload.mk none (some 5) none none none none none)).act.state = some false ∧
    (Actuator.onGet (ActuatorState.mk none (some false) true)
        (GetPayload.mk (some "ON") none none none none none none)).state = some true :=
  ⟨((on_get_partial_report (ActuatorState.mk none (some false) true)
      (LightState.mk (ActuatorState.mk none (some false) true) none none none none none none)
      (GetPayload.mk none (some 5) none none none none none)).2.2.1 rfl).2.2.1,
   ((on_get_partial_report (ActuatorState.mk none (some false) true)
      (LightState.mk (ActuatorState.mk none (some false) true) none none none none none none)
      (GetPayload.mk none (some 5) none none none none none)).2.2.1 rfl).2.2.2,
   (on_get_partial_report (ActuatorState.mk none (some false) true)
      (LightState.mk (ActuatorState.mk none (some false) true) none none none none none none)
      (GetPayload.mk none none none none none none none)).1.2⟩

/-! ## Theorems: inventory reconciler -/

/-- Helper: a falsy dict-chain value leaves the previously stored attribute
in place. -/
theorem orKeep_falsy (v : Option DVal) (prev : Option DVal) (h : optTruthy v = false) :
    orKeep v prev = prev := by
  cases v with
  | none => rfl
  | some x =>
      simp [optTruthy] at h
      simp [orKeep, h]

/-- Helper: closed form of the optional-field update block, field by
field. -/
theorem applyOptional_eq (parse : String → Option Nat) (d : Desc) (r : DeviceRec) :
    applyOptional parse d r = DeviceRec.mk r.ieee_address r.friendly_name
      (match descNetAddr d with
       | none => none
       | some v => match pyInt v with
         | some k => some k
         | none => r.network_address)
      (orKeep (descType d) r.device_type)
      (orKeep (descModel d) r.zigbee_model)
      (orKeep (descManufacturer d) r.zigbee_manufacturer)
      (orKeep (descFirmwareVersion d) r.firmware_version)
      (match parse_date_maybe parse (descBuildRaw d) with
       | some dt => some dt
       | none => r.firmware_build_date)
      none := by
  unfold applyOptional
  cases hna : descNetAddr d with
  | none => cases hbd : parse_date_maybe parse (descBuildRaw d) <;> simp [hbd]
  | some v =>
      cases hpi : pyInt v <;> cases hbd : parse_date_maybe parse (descBuildRaw d) <;>
        simp [hpi, hbd]

/-- Helper: looking up the head row's own primary key finds it. -/
theorem storeGet_self (r : DeviceRec) (rest : Store) :
    storeGet (r :: rest) r.ieee_address = some r := by
  simp [storeGet, List.find?]

/-- Helper: a row fetched by primary key carries that key. -/
theorem storeGet_eq_ieee (store : Store) (iv : DVal) (r : DeviceRec)
    (h : storeGet store iv = some r) : r.ieee_address = iv := by
  unfold storeGet at h
  have hp := List.find?_some h
  simpa using hp

/-- Helper: one-step unfolding of `activeOf` on a cons cell. -/
theorem activeOf_cons_eq (d : Desc) (rest : List Desc) :
    activeOf (d :: rest) =
      match descIeee d, descFriendly d with
      | some iv, some fv =>
          if iv.truthy && fv.truthy then iv :: activeOf rest else activeOf rest
      | _, _ => activeOf rest := rfl

/-- Helper: a skipped descriptor contributes no active address. -/
theorem activeOf_cons_skip (d : Desc) (rest : List Desc) (h : validDesc d = false) :
    activeOf (d :: rest) = activeOf rest := by
  unfold validDesc at h
  rw [activeOf_cons_eq]
  cases hdi : descIeee d with
  | none => simp
  | some iv =>
      cases hdf : descFriendly d with
      | none => simp
      | some fv =>
          rw [hdi, hdf] at h
          simp only [optTruthy] at h
          simp [h]

/-- Helper: a processed descriptor contributes its IEEE address. -/
theorem activeOf_cons_process (d : Desc) (rest : List Desc) (iv fv : DVal)
    (hiv : descIeee d = some iv) (hfv : descFriendly d = some fv)
    (h1 : iv.truthy = true) (h2 : fv.truthy = true) :
    activeOf (d :: rest) = iv :: activeOf rest := by
  rw [activeOf_cons_eq, hiv, hfv]
  simp [h1, h2]

/-- Helper: a descriptor failing the identifier check leaves the loop
accumulator untouched. -/
theorem upsertStep_skip (parse : String → Option Nat) (acc : Store × Nat × List DVal)
    (d : Desc) (h : validDesc d = false) : upsertStep parse acc d = acc := by
  unfold validDesc at h
  unfold upsertStep
  cases hdi : descIeee d with
  | none => simp
  | some iv =>
      cases hdf : descFriendly d with
      | none => simp
      | some fv =>
          rw [hdi, hdf] at h
          simp only [optTruthy] at h
          simp [h]

/-- Helper: closed form of one processed iteration of the upsert loop. -/
theorem upsertStep_process (parse : String → Option Nat) (store : Store) (count : Nat)
    (active : List DVal) (d : Desc) (iv fv : DVal)
    (hiv : descIeee d = some iv) (hfv : descFriendly d = some fv)
    (h1 : iv.truthy = true) (h2 : fv.truthy = true) :
    upsertStep parse (store, count, active) d =
      ((match storeGet store iv with
        | none =>
            store ++ [applyOptional parse d
              (DeviceRec.mk iv fv none none none none none none none)]
        | some r => storeSet store iv (applyOptional parse d { r with friendly_name := fv })),
       count + 1, active ++ [iv]) := by
  unfold upsertStep
  rw [hiv, hfv]
  cases hsg : storeGet store iv <;> simp [hsg, h1, h2]

/-- Helper: the active-address component of the upsert loop is the
accumulator followed by `activeOf` of the snapshot. -/
theorem upsert_foldl_active (parse : String → Option Nat) (devices : List Desc) :
    ∀ (store : Store) (count : Nat) (active : List DVal),
    (devices.foldl (upsertStep parse) (store, count, active)).2.2
      = active ++ activeOf devices := by
  induction devices with
  | nil => intro store count active; simp [activeOf]
  | cons d rest ih =>
      intro store count active
      rw [List.foldl_cons]
      cases hval : validDesc d with
      | false =>
          rw [upsertStep_skip parse _ d hval, activeOf_cons_skip d rest hval]
          exact ih store count active
      | true =>
          unfold validDesc at hval
          cases hdi : descIeee d with
          | none => rw [hdi] at hval; simp [optTruthy] at hval
          | some iv =>
              cases hdf : descFriendly d with
              | none => rw [hdi, hdf] at hval; simp [optTruthy] at hval
              | some fv =>
                  rw [hdi, hdf] at hval
                  simp only [optTruthy, Bool.and_eq_true] at hval
                  rw [upsertStep_process parse store count active d iv fv hdi hdf hval.1 hval.2,
                      activeOf_cons_process d rest iv fv hdi hdf hval.1 hval.2]
                  rw [ih _ _ _]
                  simp

/-- Helper: with every descriptor valid, the processed count of the upsert
loop advances by the snapshot length. -/
theorem upsert_foldl_count (parse : String → Option Nat) (devices : List Desc)
    (hv : ∀ d ∈ devices, validDesc d = true) :
    ∀ (store : Store) (count : Nat) (active : List DVal),
    (devices.foldl (upsertStep parse) (store, count, active)).2.1
      = count + devices.length := by
  induction devices with
  | nil => intro store count active; simp
  | cons d rest ih =>
      intro store count active
      have hd : validDesc d = true := hv d (by simp)
      have hrest : ∀ d' ∈ rest, validDesc d' = true := fun d' h' => hv d' (by simp [h'])
      rw [List.foldl_cons]
      unfold validDesc at hd
      cases hdi : descIeee d with
      | none => rw [hdi] at hd; simp [optTruthy] at hd
      | some iv =>
          cases hdf : descFriendly d with
          | none => rw [hdi, hdf] at hd; simp [optTruthy] at hd
          | some fv =>
              rw [hdi, hdf] at hd
              simp only [optTruthy, Bool.and_eq_true] at hd
              rw [upsertStep_process parse store count active d iv fv hdi hdf hd.1 hd.2]
              rw [ih hrest _ _ _]
              simp [List.length_cons]
              omega

/-- Helper: the upsert loop preserves the invariant that every active row's
address lies in a superset of the snapshot's active addresses. -/
theorem upsert_foldl_inv (parse : String → Option Nat) (devices : List Desc) :
    ∀ (A : List DVal), (∀ x ∈ activeOf devices, x ∈ A) →
    ∀ (store : Store) (count : Nat) (active : List DVal),
    (∀ row ∈ store, row.retired_at = none → row.ieee_address ∈ A) →
    ∀ row ∈ (devices.foldl (upsertStep parse) (store, count, active)).1,
      row.retired_at = none → row.ieee_address ∈ A := by
  induction devices with
  | nil => intro A hA store count active h; simpa using h
  | cons d rest ih =>
      intro A hA store count active h
      rw [List.foldl_cons]
      cases hval : validDesc d with
      | false =>
          rw [upsertStep_skip parse _ d hval]
          exact ih A (fun x hx => hA x (by rw [activeOf_cons_skip d rest hval]; exact hx))
            store count active h
      | true =>
          unfold validDesc at hval
          cases hdi : descIeee d with
          | none => rw [hdi] at hval; simp [optTruthy] at hval
          | some iv =>
              cases hdf : descFriendly d with
              | none => rw [hdi, hdf] at hval; simp [optTruthy] at hval
              | some fv =>
                  rw [hdi, hdf] at hval
                  simp only [optTruthy, Bool.and_eq_true] at hval
                  rw [upsertStep_process parse store count active d iv fv hdi hdf hval.1 hval.2]
                  have hivA : iv ∈ A := hA iv (by
                    rw [activeOf_cons_process d rest iv fv hdi hdf hval.1 hval.2]
                    exact List.mem_cons_self iv _)
                  have hA' : ∀ x ∈ activeOf rest, x ∈ A := fun x hx => hA x (by
                    rw [activeOf_cons_process d rest iv fv hdi hdf hval.1 hval.2]
                    exact List.mem_cons_of_mem iv hx)
                  apply ih A hA'
                  intro row hrow hret
                  cases hsg : storeGet store iv with
                  | none =>
                      rw [hsg] at hrow
                      rcases List.mem_append.mp hrow with hmem | hmem
                      · exact h row hmem hret
                      · have : row = applyOptional parse d
                            (DeviceRec.mk iv fv none none none none none none none) := by
                          simpa using hmem
                        rw [this, applyOptional_eq]
                        exact hivA
                  | some r0 =>
                      rw [hsg] at hrow
                      unfold storeSet at hrow
                      rcases List.mem_map.mp hrow with ⟨row0, hrow0, heq⟩
                      by_cases hcond : (row0.ieee_address == iv) = true
                      · rw [if_pos hcond] at heq
                        rw [← heq, applyOptional_eq]
                        have : r0.ieee_address = iv := storeGet_eq_ieee store iv r0 hsg
                        simpa [this] using hivA
                      · rw [if_neg hcond] at heq
                        rw [← heq]
                        exact h row0 hrow0 (by rw [heq]; exact hret)

/-- Helper: after the retirement pass, every still-active row's address is
in the active set. -/
theorem retirePass_post (now : Nat) (A : List DVal) :
    ∀ rows : Store, ∀ row ∈ (retirePass now A rows).1,
      row.retired_at = none → row.ieee_address ∈ A := by
  intro rows
  induction rows with
  | nil => simp [retirePass]
  | cons r rest ih =>
      intro row hrow hret
      unfold retirePass at hrow
      by_cases hc : (r.retired_at = none ∧ ¬ r.ieee_address ∈ A)
      · rw [if_pos hc] at hrow
        rcases List.mem_cons.mp hrow with heq | hmem
        · rw [heq] at hret; simp at hret
        · exact ih row hmem hret
      · rw [if_neg hc] at hrow
        rcases List.mem_cons.mp hrow with heq | hmem
        · rw [heq] at hret ⊢
          exact not_not.mp (not_and.mp hc hret)
        · exact ih row hmem hret

/-- Helper: the retirement pass retires nothing when every active row's
address is already in the active set. -/
theorem retirePass_zero (now : Nat) (A : List DVal) :
    ∀ rows : Store, (∀ row ∈ rows, row.retired_at = none → row.ieee_address ∈ A) →
      retirePass now A rows = (rows, 0) := by
  intro rows
  induction rows with
  | nil => intro; rfl
  | cons r rest ih =>
      intro h
      unfold retirePass
      rw [ih (fun row hr => h row (List.mem_cons_of_mem _ hr))]
      rw [if_neg (fun hc => hc.2 (h r (List.mem_cons_self r rest) hc.1))]

/-- Helper: the retirement pass retires exactly the rows that are active
and whose address is outside the active set. -/
theorem retirePass_count (now : Nat) (A : List DVal) :
    ∀ rows : Store, (retirePass now A rows).2
      = rows.countP (fun r => decide (r.retired_at = none ∧ ¬ r.ieee_address ∈ A)) := by
  intro rows
  induction rows with
  | nil => rfl
  | cons r rest ih =>
      unfold retirePass
      rw [List.countP_cons]
      by_cases hc : (r.retired_at = none ∧ ¬ r.ieee_address ∈ A)
      · rw [if_pos hc]
        simp [hc, ih]
      · rw [if_neg hc]
        simp [hc, ih]

/-- Helper: the upsert loop does not change the number of stale rows
(active rows whose address is outside a superset of the snapshot's active
addresses): it only rewrites or appends rows whose address is in that
set. -/
theorem upsert_foldl_countP (parse : String → Option Nat) (devices : List Desc) :
    ∀ (A : List DVal), (∀ x ∈ activeOf devices, x ∈ A) →
    ∀ (store : Store) (count : Nat) (active : List DVal),
    ((devices.foldl (upsertStep parse) (store, count, active)).1).countP
        (fun r => decide (r.retired_at = none ∧ ¬ r.ieee_address ∈ A))
      = store.countP (fun r => decide (r.retired_at = none ∧ ¬ r.ieee_address ∈ A)) := by
  induction devices with
  | nil => intro A hA store count active; simp
  | cons d rest ih =>
      intro A hA store count active
      rw [List.foldl_cons]
      cases hval : validDesc d with
      | false =>
          rw [upsertStep_skip parse _ d hval]
          exact ih A (fun x hx => hA x (by rw [activeOf_cons_skip d rest hval]; exact hx))
            store count active
      | true =>
          unfold validDesc at hval
          cases hdi : descIeee d with
          | none => rw [hdi] at hval; simp [optTruthy] at hval
          | some iv =>
              cases hdf : descFriendly d with
              | none => rw [hdi, hdf] at hval; simp [optTruthy] at hval
              | some fv =>
                  rw [hdi, hdf] at hval
                  simp only [optTruthy, Bool.and_eq_true] at hval
                  rw [upsertStep_process parse store count active d iv fv hdi hdf hval.1 hval.2]
                  have hivA : iv ∈ A := hA iv (by
                    rw [activeOf_cons_process d rest iv fv hdi hdf hval.1 hval.2]
                    exact List.mem_cons_self iv _)
                  have hA' : ∀ x ∈ activeOf rest, x ∈ A := fun x hx => hA x (by
                    rw [activeOf_cons_process d rest iv fv hdi hdf hval.1 hval.2]
                    exact List.mem_cons_of_mem iv hx)
                  rw [ih A hA' _ _ _]
                  cases hsg : storeGet store iv with
                  | none =>
                      rw [List.countP_append]
                      have hfalse : (fun r => decide (r.retired_at = none ∧ ¬ r.ieee_address ∈ A))
                          (applyOptional parse d
                            (DeviceRec.mk iv fv none none none none none none none)) = false := by
                        simp [applyOptional_eq, hivA]
                      simp [hfalse]
                      intro _
                      simpa [applyOptional_eq] using hivA
                  | some r0 =>
                      unfold storeSet
                      rw [List.countP_map]
                      apply List.countP_congr
                      intro row hrow
                      by_cases hcond : (row.ieee_address == iv) = true
                      · have hri : row.ieee_address = iv := by simpa using hcond
                        have h1 : r0.ieee_address = iv := storeGet_eq_ieee store iv r0 hsg
                        simp [Function.comp, hcond, applyOptional_eq, h1, hri, hivA]
                      · simp [Function.comp, hcond]

/-- Claim C9: reconciling an empty snapshot against a store holding one
active record and one already-retired record returns `(upserted=0,
retired=1)`; the active record receives the fresh retirement timestamp and
the already-retired record keeps its original timestamp untouched. -/
theorem reconcile_empty_snapshot (parse : String → Option Nat) (now t : Nat)
    (r1 r2 : DeviceRec) (h1 : r1.retired_at = none) (h2 : r2.retired_at = some t) :
    store_devices_to_db parse now [r1, r2] [] =
      ([{ r1 with retired_at := some now }, r2], 0, 1) := by
  simp [store_devices_to_db, retirePass, h1, h2]

/-- Witness for claim C9's theorem at a concrete input: an active record
"A" and a record "B" retired at time 7, reconciled against the empty
snapshot at time 42. -/
theorem reconcile_empty_snapshot_witness :
    store_devices_to_db (fun _ => none) 42
      [DeviceRec.mk (DVal.s "A") (DVal.s "NA") none none none none none none none,
       DeviceRec.mk (DVal.s "B") (DVal.s "NB") none none none none none none (some 7)] []
    = ([DeviceRec.mk (DVal.s "A") (DVal.s "NA") none none none none none none (some 42),
        DeviceRec.mk (DVal.s "B") (DVal.s "NB") none none none none none none (some 7)],
       0, 1) :=
  reconcile_empty_snapshot (fun _ => none) 42 7
    (DeviceRec.mk (DVal.s "A") (DVal.s "NA") none none none none none none none)
    (DeviceRec.mk (DVal.s "B") (DVal.s "NB") none none none none none none (some 7))
    rfl rfl

/-- Claim C3 (amended): a descriptor matching an existing record still
counts toward the upserted total and raises no error, and each optional
field behaves as follows: device type, model, manufacturer and firmware
version are overwritten only when the descriptor supplies a truthy value
via an accepted alias key and are kept otherwise; the build date is kept
when its raw value is absent or unparsable; a supplied non-numeric network
address keeps the previously stored value; but an absent network address
does not keep the stored value — it is cleared to null. -/
theorem reconcile_optional_fields (parse : String → Option Nat) (now : Nat)
    (r : DeviceRec) (d : Desc) (fv : DVal)
    (hi : descIeee d = some r.ieee_address) (hit : r.ieee_address.truthy = true)
    (hf : descFriendly d = some fv) (hft : fv.truthy = true) :
    ∃ r', store_devices_to_db parse now [r] [d] = ([r'], 1, 0) ∧
      (descNetAddr d = none → r'.network_address = none) ∧
      (∀ v, descNetAddr d = some v → pyInt v = none →
        r'.network_address = r.network_address) ∧
      (optTruthy (descType d) = false → r'.device_type = r.device_type) ∧
      (optTruthy (descModel d) = false → r'.zigbee_model = r.zigbee_model) ∧
      (optTruthy (descManufacturer d) = false →
        r'.zigbee_manufacturer = r.zigbee_manufacturer) ∧
      (optTruthy (descFirmwareVersion d) = false →
        r'.firmware_version = r.firmware_version) ∧
      (parse_date_maybe parse (descBuildRaw d) = none →
        r'.firmware_build_date = r.firmware_build_date) := by
  refine ⟨applyOptional parse d { r with friendly_name := fv }, ?_, ?_, ?_, ?_, ?_, ?_, ?_, ?_⟩
  · have hup : upsertStep parse ([r], 0, []) d
        = ([applyOptional parse d { r with friendly_name := fv }], 1, [r.ieee_address]) := by
      unfold upsertStep
      rw [hi, hf]
      simp [hit, hft, storeGet_self, storeSet]
    have hieee : (applyOptional parse d { r with friendly_name := fv }).ieee_address
        = r.ieee_address := by
      simp [applyOptional_eq]
    simp [store_devices_to_db, hup, retirePass, hieee, applyOptional_eq]
  · intro h
    simp [applyOptional_eq, h]
  · intro v hv hpi
    simp [applyOptional_eq, hv, hpi]
  · intro h
    simp [applyOptional_eq, orKeep_falsy _ _ h]
  · intro h
    simp [applyOptional_eq, orKeep_falsy _ _ h]
  · intro h
    simp [applyOptional_eq, orKeep_falsy _ _ h]
  · intro h
    simp [applyOptional_eq, orKeep_falsy _ _ h]
  · intro h
    simp [applyOptional_eq, h]

/-- Witness for claim C3's amended theorem at a concrete input: a record
with network address 33 and a stored device type, updated by a descriptor
supplying a non-numeric network address and no other optional field. -/
theorem reconcile_optional_fields_witness :
    ∃ r', store_devices_to_db (fun _ => none) 0
        [DeviceRec.mk (DVal.s "A") (DVal.s "old") (some 33) (some (DVal.s "bulb"))
          none none none none none]
        [[("ieee_address", DVal.s "A"), ("friendly_name", DVal.s "N"),
          ("network_address", DVal.s "not-an-int")]]
      = ([r'], 1, 0) ∧
      (descNetAddr [("ieee_address", DVal.s "A"), ("friendly_name", DVal.s "N"),
          ("network_address", DVal.s "not-an-int")] = none → r'.network_address = none) ∧
      (∀ v, descNetAddr [("ieee_address", DVal.s "A"), ("friendly_name", DVal.s "N"),
          ("network_address", DVal.s "not-an-int")] = some v → pyInt v = none →
        r'.network_address = some 33) ∧
      (optTruthy (descType [("ieee_address", DVal.s "A"), ("friendly_name", DVal.s "N"),
          ("network_address", DVal.s "not-an-int")]) = false →
        r'.device_type = some (DVal.s "bulb")) ∧
      (optTruthy (descModel [("ieee_address", DVal.s "A"), ("friendly_name", DVal.s "N"),
          ("network_address", DVal.s "not-an-int")]) = false → r'.zigbee_model = none) ∧
      (optTruthy (descManufacturer [("ieee_address", DVal.s "A"), ("friendly_name", DVal.s "N"),
          ("network_address", DVal.s "not-an-int")]) = false → r'.zigbee_manufacturer = none) ∧
      (optTruthy (descFirmwareVersion [("ieee_address", DVal.s "A"), ("friendly_name", DVal.s "N"),
          ("network_address", DVal.s "not-an-int")]) = false → r'.firmware_version = none) ∧
      (parse_date_maybe (fun _ => none)
          (descBuildRaw [("ieee_address", DVal.s "A"), ("friendly_name", DVal.s "N"),
            ("network_address", DVal.s "not-an-int")]) = none →
        r'.firmware_build_date = none) :=
  reconcile_optional_fields (fun _ => none) 0
    (DeviceRec.mk (DVal.s "A") (DVal.s "old") (some 33) (some (DVal.s "bulb"))
      none none none none none)
    [("ieee_address", DVal.s "A"), ("friendly_name", DVal.s "N"),
      ("network_address", DVal.s "not-an-int")]
    (DVal.s "N") (by decide) (by decide) (by decide) (by decide)

/-- Counterexample to claim C3 as stated: a descriptor that supplies no
network-address key, reconciled against an existing record storing network
address 33, is still counted as upserted but leaves the stored network
address cleared rather than unchanged, so "when the field is absent ... the
previously stored value is left unchanged" is false for the network
address. -/
theorem reconcile_absent_network_address_clears :
    (store_devices_to_db (fun _ => none) 0
      [DeviceRec.mk (DVal.s "A") (DVal.s "N") (some 33) none none none none none none]
      [[("ieee_address", DVal.s "A"), ("friendly_name", DVal.s "N")]]).2.1 = 1 ∧
    ¬ ((store_devices_to_db (fun _ => none) 0
      [DeviceRec.mk (DVal.s "A") (DVal.s "N") (some 33) none none none none none none]
      [[("ieee_address", DVal.s "A"), ("friendly_name", DVal.s "N")]]).1.map
        DeviceRec.network_address = [some 33]) := by
  decide

/-- Claim C8 (amended): for a snapshot of N valid descriptors run twice in
a row against the same store, both runs upsert N records; the first run
retires exactly the previously active records whose addresses are missing
from the snapshot — in particular it retires nothing (returning `(N, 0)`)
whenever no previously active record is missing, such as from an empty
store — and the second run always retires nothing. -/
theorem reconcile_idempotent (parse : String → Option Nat) (now1 now2 : Nat)
    (store : Store) (devices : List Desc)
    (hv : ∀ d ∈ devices, validDesc d = true) :
    (store_devices_to_db parse now1 store devices).2.1 = devices.length ∧
    (store_devices_to_db parse now1 store devices).2.2
      = store.countP (fun r =>
          decide (r.retired_at = none ∧ ¬ r.ieee_address ∈ activeOf devices)) ∧
    ((∀ row ∈ store, row.retired_at = none → row.ieee_address ∈ activeOf devices) →
      (store_devices_to_db parse now1 store devices).2.2 = 0) ∧
    (store_devices_to_db parse now2
      (store_devices_to_db parse now1 store devices).1 devices).2.1 = devices.length ∧
    (store_devices_to_db parse now2
      (store_devices_to_db parse now1 store devices).1 devices).2.2 = 0 := by
  have hcount1 : (devices.foldl (upsertStep parse) (store, 0, [])).2.1 = devices.length := by
    simpa using upsert_foldl_count parse devices hv store 0 []
  have hact1 : (devices.foldl (upsertStep parse) (store, 0, [])).2.2 = activeOf devices := by
    simpa using upsert_foldl_active parse devices store 0 []
  have hret1 : (store_devices_to_db parse now1 store devices).2.2
      = store.countP (fun r =>
          decide (r.retired_at = none ∧ ¬ r.ieee_address ∈ activeOf devices)) := by
    simp only [store_devices_to_db]
    rw [hact1]
    rw [retirePass_count now1 (activeOf devices) _]
    exact upsert_foldl_countP parse devices (activeOf devices) (fun x hx => hx) store 0 []
  refine ⟨?_, hret1, ?_, ?_, ?_⟩
  · simp only [store_devices_to_db]
    exact hcount1
  · intro h
    rw [hret1, List.countP_eq_zero]
    intro r hr hp
    simp only [decide_eq_true_eq] at hp
    exact hp.2 (h r hr hp.1)
  · simp only [store_devices_to_db]
    simpa using upsert_foldl_count parse devices hv _ 0 []
  · have hs1 : ∀ row ∈ (retirePass now1 (activeOf devices)
          (List.foldl (upsertStep parse) (store, 0, []) devices).1).1,
        row.retired_at = none → row.ieee_address ∈ activeOf devices :=
      retirePass_post now1 (activeOf devices) _
    simp only [store_devices_to_db]
    rw [hact1]
    rw [upsert_foldl_active parse devices _ 0 []]
    simp only [List.nil_append]
    rw [retirePass_zero now2 (activeOf devices) _
      (upsert_foldl_inv parse devices (activeOf devices) (fun x hx => hx) _ 0 [] hs1)]

/-- Witness for claim C8's amended theorem at a concrete input: one valid
descriptor reconciled twice starting from the empty store (which has no
stale active record, so both runs return `(1, 0)`). -/
theorem reconcile_idempotent_witness :
    (store_devices_to_db (fun _ => none) 5 []
      [[("ieee_address", DVal.s "A"), ("friendly_name", DVal.s "NA")]]).2.1 = 1 ∧
    (store_devices_to_db (fun _ => none) 5 []
      [[("ieee_address", DVal.s "A"), ("friendly_name", DVal.s "NA")]]).2.2 = 0 ∧
    (store_devices_to_db (fun _ => none) 6
      (store_devices_to_db (fun _ => none) 5 []
        [[("ieee_address", DVal.s "A"), ("friendly_name", DVal.s "NA")]]).1
      [[("ieee_address", DVal.s "A"), ("friendly_name", DVal.s "NA")]]).2.1 = 1 ∧
    (store_devices_to_db (fun _ => none) 6
      (store_devices_to_db (fun _ => none) 5 []
        [[("ieee_address", DVal.s "A"), ("friendly_name", DVal.s "NA")]]).1
      [[("ieee_address", DVal.s "A"), ("friendly_name", DVal.s "NA")]]).2.2 = 0 :=
  have T := reconcile_idempotent (fun _ => none) 5 6 []
    [[("ieee_address", DVal.s "A"), ("friendly_name", DVal.s "NA")]] (by decide)
  ⟨T.1, T.2.2.1 (by intro row hrow; simp at hrow), T.2.2.2.1, T.2.2.2.2⟩

/-- Counterexample to claim C8 as stated: reconciling a snapshot of one
valid descriptor against a store holding one active record not in the
snapshot returns `(1, 1)` on the first run, not `(1, 0)`, so "returns
(N, 0) both times" is false for the first run. -/
theorem reconcile_first_run_can_retire :
    (store_devices_to_db (fun _ => none) 5
      [DeviceRec.mk (DVal.s "B") (DVal.s "NB") none none none none none none none]
      [[("ieee_address", DVal.s "A"), ("friendly_name", DVal.s "NA")]]).2.1 = 1 ∧
    ¬ ((store_devices_to_db (fun _ => none) 5
      [DeviceRec.mk (DVal.s "B") (DVal.s "NB") none none none none none none none]
      [[("ieee_address", DVal.s "A"), ("friendly_name", DVal.s "NA")]]).2.2 = 0) := by
  decide
